import Mathlib

/-!
Shallow embedding of `homework_bot` (src/homework.py, src/exceptions.py):
a Telegram bot that polls a homework-review API and notifies a chat when
the review status of the most recent homework changes.

Python values decoded from JSON are modelled by the inductive `Json`;
Python exceptions raised by the bot are modelled by the inductive
`BotError`, one constructor per raise site (plus the unguarded dict
lookup, which raises a plain `KeyError`).  Fallible functions return
`Except BotError α`.  One iteration of the `while True` loop in `main`
is modelled by `run_cycle`, with the outcomes of the two possible
`send_message` calls supplied as oracle booleans (`send_message` returns
`False` when the Telegram transport raises, `True` otherwise).
-/

/-- A Python value decoded from a JSON body (`response.json()`).
Numbers are modelled as integers: every value the API contract uses
(`current_date`, timestamps) is integral, and no claim involves floats. -/
inductive Json where
  | null
  | bool (b : Bool)
  | num (n : Int)
  | str (s : String)
  | arr (elems : List Json)
  | obj (fields : List (String × Json))

/-- Python `value.__class__.__name__` for a decoded JSON value. -/
def Json.pyClassName : Json → String
  | .null => "NoneType"
  | .bool _ => "bool"
  | .num _ => "int"
  | .str _ => "str"
  | .arr _ => "list"
  | .obj _ => "dict"

/-- Whether a decoded JSON value is hashable in Python: the scalars
(`None`, booleans, numbers, strings) are, a list or dict is not.
Testing an unhashable value for dict membership raises
`TypeError: unhashable type` instead of evaluating to `False`. -/
def Json.pyHashable : Json → Bool
  | .arr _ => false
  | .obj _ => false
  | _ => true

/-- Python `repr(value)` for a decoded JSON value: like `str(value)`
except that strings are quoted.  Scalars follow Python exactly
(`None`/`True`/`False`, integers in decimal, `'quoted'` strings);
containers are rendered recursively in Python's style.  No claim
depends on the container rendering. -/
def Json.pyRepr : Json → String
  | .null => "None"
  | .bool true => "True"
  | .bool false => "False"
  | .num n => toString n
  | .str s => "'" ++ s ++ "'"
  | .arr elems => "[" ++ String.intercalate ", "
      (elems.attach.map fun x => Json.pyRepr x.val) ++ "]"
  | .obj fields => "\x7b" ++ String.intercalate ", "
      (fields.attach.map fun kv =>
        "'" ++ kv.val.1 ++ "': " ++ Json.pyRepr kv.val.2) ++ "\x7d"
decreasing_by
  · simp_wf
    have := List.sizeOf_lt_of_mem x.property
    omega
  · simp_wf
    obtain ⟨⟨k, v⟩, hmem⟩ := kv
    have := List.sizeOf_lt_of_mem hmem
    simp_all
    omega

/-- Python `str(value)` for a decoded JSON value, as interpolated by an
f-string: identical to `repr` except that a string renders bare. -/
def Json.pyStr : Json → String
  | .str s => s
  | v => v.pyRepr

/-- Python `response.get(key)` on a decoded JSON dict: the value under
`key`, or `None` when the key is absent.  Only ever applied to values
that `check_response` has already certified to be dicts, so the
non-dict branch (where Python would raise `AttributeError`) is
unreachable in the modelled program. -/
def Json.dictGet (j : Json) (key : String) : Json :=
  match j with
  | .obj fields => (fields.lookup key).getD .null
  | _ => .null

/- ## Error model (src/exceptions.py plus the Python built-ins the code
can raise).  One constructor per raise site, carrying the data the
raise site interpolates into its message. -/

/-- An exception raised by the bot's pipeline functions.
`tokenCheckError`, `responseStatusNotOK`, `homeworkErrorMissingName`
and `homeworkErrorUnknownStatus` are the bot's own classes from
src/exceptions.py (`TokenCheckError`, `ResponseStatusNotOK`, and the
two `HomeworkError` raise sites of `parse_status`); the rest are
Python built-ins or library exceptions that escape uncaught
(`ConnectionError`, `TypeError`, `KeyError`,
`requests.exceptions.JSONDecodeError`). -/
inductive BotError where
  | tokenCheckError (lost_tokens : List String)
  | connectionError (paramsMsg requestError : String)
  | responseStatusNotOK (status_code : Nat) (reason text : String)
  | typeErrorNotDict (className : String)
  | typeErrorNoHomeworksKey
  | typeErrorHomeworksNotList (className : String)
  | homeworkErrorMissingName
  | homeworkErrorUnknownStatus (status : Json)
  | keyError (key : String)
  | jsonDecodeError
  | pyTypeErrorNotMapping (className : String)
  | pyTypeErrorUnhashable (className : String)

/-- The homework-status → verdict table `HOMEWORK_VERDICTS`
(src/homework.py lines 24-28). -/
def HOMEWORK_VERDICTS : List (String × String) :=
  [("approved", "Работа проверена: ревьюеру всё понравилось. Ура!"),
   ("reviewing", "Работа взята на проверку ревьюером."),
   ("rejected", "Работа проверена: у ревьюера есть замечания.")]

/-- `RETRY_PERIOD = 600` (src/homework.py line 20): the fixed delay in
seconds slept in the loop's `finally` block. -/
def RETRY_PERIOD : Nat := 600

/-- `ENDPOINT` (src/homework.py line 21). -/
def ENDPOINT : String :=
  "https://practicum.yandex.ru/api/user_api/homework_statuses/"

/-- The `Authorization` header value built by `HEADERS`
(src/homework.py line 22). -/
def headersAuthorization (practicum_token : String) : String :=
  "OAuth " ++ practicum_token

/-- The `params_msg` f-string of `get_api_answer`
(src/homework.py lines 87-89). -/
def params_msg (practicum_token : String) (timestamp : Json) : String :=
  "Эндпоинт: " ++ ENDPOINT ++ " "
    ++ "Авторизация: " ++ headersAuthorization practicum_token ++ " "
    ++ "Метка времени: " ++ timestamp.pyStr ++ " "

/-- `str(error)` for each modelled exception: for the bot's own classes
this is the `message` passed to the raise (src/exceptions.py defines
`__str__` to return it); for `TypeError`/`ConnectionError` it is the
message string the raise site built; for `KeyError` Python renders the
repr of the missing key; the `JSONDecodeError` message comes from the
json parser's internals, and no claim depends on it. -/
def BotError.message : BotError → String
  | .tokenCheckError lost_tokens =>
      "Не найдены необходимые переменные окружения: "
        ++ String.intercalate ", " lost_tokens
  | .connectionError paramsMsg requestError =>
      "Ошибка запроса. Запрос с параметрами: " ++ paramsMsg
        ++ " завершился ошибкой " ++ requestError
  | .responseStatusNotOK status_code reason text =>
      "Запрошенный ресурс недоступен."
        ++ "Код ответа: " ++ toString status_code
        ++ "Причина: " ++ reason
        ++ "Ответ сервера: " ++ text
  | .typeErrorNotDict className =>
      "В ответе сервера ожидали dict, а получили " ++ className
  | .typeErrorNoHomeworksKey =>
      "В ответе сервера не найден ключ \"homeworks\""
  | .typeErrorHomeworksNotList className =>
      "В ответет сервера под ключом \"homeworks\" ожидали"
        ++ "list, а получили " ++ className ++ "!"
  | .homeworkErrorMissingName =>
      "Ключ \"homework_name\" не найден в ответе API"
  | .homeworkErrorUnknownStatus status =>
      "Полученный статус домашки \"" ++ status.pyStr ++ "\" "
        ++ "не соответствует ни одному из ожидаемых: "
        ++ String.intercalate "|" (HOMEWORK_VERDICTS.map Prod.fst)
  | .keyError key => "'" ++ key ++ "'"
  | .jsonDecodeError => "Expecting value"
  | .pyTypeErrorNotMapping className =>
      "argument of type '" ++ className ++ "' is not a mapping"
  | .pyTypeErrorUnhashable className =>
      "unhashable type: '" ++ className ++ "'"

/-- Whether the exception is one of the bot's own classes declared in
src/exceptions.py (subclasses of its `BaseException`), as opposed to a
plain Python built-in or third-party exception. -/
def BotError.isBotDefined : BotError → Bool
  | .tokenCheckError _ => true
  | .responseStatusNotOK _ _ _ => true
  | .homeworkErrorMissingName => true
  | .homeworkErrorUnknownStatus _ => true
  | _ => false

/- ## check_tokens (src/homework.py lines 42-57) -/

/-- The `for name, value in (...)` loop of `check_tokens`.  Note that in
the source the `if lost_tokens: raise TokenCheckError(...)` statement
is indented inside the loop body, so the raise fires at the end of the
first iteration whose value is missing. -/
def check_tokens_scan :
    List (String × Option String) → List String → Except BotError Unit
  | [], _ => .ok ()
  | (name, value) :: rest, lost_tokens =>
      let lost_tokens' :=
        if value = none then lost_tokens ++ [name] else lost_tokens
      if lost_tokens' ≠ [] then .error (.tokenCheckError lost_tokens')
      else check_tokens_scan rest lost_tokens'

/-- `check_tokens()`: scans `PRACTICUM_TOKEN`, `TELEGRAM_TOKEN`,
`TELEGRAM_CHAT_ID` in that order, accumulating missing names in
`lost_tokens` and raising `TokenCheckError` (from inside the loop). -/
def check_tokens (practicum_token telegram_token telegram_chat_id :
    Option String) : Except BotError Unit :=
  check_tokens_scan
    [("PRACTICUM_TOKEN", practicum_token),
     ("TELEGRAM_TOKEN", telegram_token),
     ("TELEGRAM_CHAT_ID", telegram_chat_id)] []

/- ## get_api_answer (src/homework.py lines 75-106) -/

/-- The observable outcome of `requests.get`: either a
`RequestException` (rendered to the string interpolated into the
`ConnectionError` message) or an HTTP response with its status code,
reason phrase, body text, and — since the embedding carries no JSON
parser — the result of `json.loads` on that body (`none` when the body
is not valid JSON, in which case `response.json()` raises
`JSONDecodeError`). -/
inductive TransportOutcome where
  | requestException (requestError : String)
  | response (status_code : Nat) (reason text : String) (jsonBody : Option Json)

/-- `get_api_answer(timestamp)`: wraps `requests.get` errors in
`ConnectionError`, raises `ResponseStatusNotOK` on a non-200 status
(carrying status code, reason and body text), otherwise returns
`response.json()`. -/
def get_api_answer (practicum_token : String) (timestamp : Json)
    (transport : TransportOutcome) : Except BotError Json :=
  match transport with
  | .requestException requestError =>
      .error (.connectionError (params_msg practicum_token timestamp)
        requestError)
  | .response status_code reason text jsonBody =>
      if status_code ≠ 200 then
        .error (.responseStatusNotOK status_code reason text)
      else
        match jsonBody with
        | none => .error .jsonDecodeError
        | some decoded => .ok decoded

/- ## check_response (src/homework.py lines 109-120) -/

/-- `check_response(response)`: requires a dict containing the key
`homeworks` whose value is a list, raising `TypeError` (naming the
offending key or received type) otherwise, and returns that list. -/
def check_response (response : Json) : Except BotError (List Json) :=
  match response with
  | .obj fields =>
      match fields.lookup "homeworks" with
      | none => .error .typeErrorNoHomeworksKey
      | some homeworksValue =>
          match homeworksValue with
          | .arr homeworks => .ok homeworks
          | other => .error (.typeErrorHomeworksNotList other.pyClassName)
  | other => .error (.typeErrorNotDict other.pyClassName)

/- ## parse_status (src/homework.py lines 123-138) -/

/-- The verdict `HOMEWORK_VERDICTS[status]` for a hashable status
value: the dict's keys are strings, so a hashable non-string status
(`None`, a boolean, a number) is a member of no key and yields `none`.
`parse_status` consults this only after the hashability check — an
unhashable (list or dict) status never reaches it, because in Python
the membership test itself raises first. -/
def verdictFor (status : Json) : Option String :=
  match status with
  | .str code => HOMEWORK_VERDICTS.lookup code
  | _ => none

/-- `parse_status(homework)`: checks `'homework_name' in homework`
(raising `HomeworkError` when absent), then reads `homework['status']`
— an unguarded dict lookup that raises a plain `KeyError` when the key
is absent — then runs the membership test
`homework_status not in HOMEWORK_VERDICTS` (homework.py line 133):
hashing a list or dict status makes the test itself raise
`TypeError: unhashable type`; a hashable status outside the keys
raises `HomeworkError`; otherwise the formatted sentence is returned.
A non-dict homework is modelled as a `TypeError` from the
`'homework_name' in homework` test; Python's `in` behaves per-type
there (substring test on `str`, element test on `list`, `TypeError`
on scalars) but no claim concerns non-dict records. -/
def parse_status (homework : Json) : Except BotError String :=
  match homework with
  | .obj fields =>
      match fields.lookup "homework_name" with
      | none => .error .homeworkErrorMissingName
      | some homework_name =>
          match fields.lookup "status" with
          | none => .error (.keyError "status")
          | some homework_status =>
              if homework_status.pyHashable then
                match verdictFor homework_status with
                | none =>
                    .error (.homeworkErrorUnknownStatus homework_status)
                | some verdict =>
                    .ok ("Изменился статус проверки работы \""
                      ++ homework_name.pyStr ++ "\". " ++ verdict)
              else
                .error (.pyTypeErrorUnhashable homework_status.pyClassName)
  | other => .error (.pyTypeErrorNotMapping other.pyClassName)

/- ## One iteration of the main loop (src/homework.py lines 149-173) -/

/-- The loop's mutable state: `prev_status` (initialised to `''`) and
`timestamp` (initialised to `int(time.time())`).  `prev_status` is a
string throughout the run: it starts as `''` and is only ever
reassigned to `homework['status']` after `parse_status` has certified
that value to be one of the string keys of `HOMEWORK_VERDICTS`.
`timestamp` is reassigned to `response.get('current_date')`, an
arbitrary JSON value (or `None`). -/
structure LoopState where
  prev_status : String
  timestamp : Json

/-- What a send was for: the formatted verdict (line 159) or the
best-effort error notification in the `except` branch (line 170). -/
inductive SendKind where
  | verdict
  | errorNote
deriving DecidableEq

/-- One observed `send_message` call: its kind, the text passed, and the
boolean it returned (`False` when the Telegram transport raised). -/
structure Send where
  kind : SendKind
  text : String
  ok : Bool

/-- The cycle's environment: the outcome of this cycle's `requests.get`,
and the outcomes the Telegram transport would give the (at most one)
verdict send and the (at most one) error-notification send. -/
structure CycleInput where
  transport : TransportOutcome
  sendVerdictOk : Bool
  sendErrorOk : Bool

/-- Everything one loop iteration does besides returning the new state:
the `send_message` calls it made, the loop-level log lines it emitted
(lines 154, 163, 168), and the seconds slept in `finally`. -/
structure CycleOutput where
  state : LoopState
  sends : List Send
  logs : List String
  slept : Nat

/-- The log line of src/homework.py line 154. -/
def noHomeworksLog : String := "В ответе сервера нет ни одной домашки."

/-- The log line of src/homework.py lines 163-164. -/
def statusUnchangedLog : String :=
  "Статус домашки не изменился, повторный запрос через "
    ++ toString RETRY_PERIOD ++ " с."

/-- The `except Exception` branch (lines 165-171): logs the failure and
attempts a best-effort chat notification.  `prev_err_msg` is assigned
`''` at the top of the branch, so the `err_msg != prev_err_msg` guard
is always true and the send is always attempted; `prev_status` and
`timestamp` are untouched. -/
def exceptBranch (s : LoopState) (e : BotError) (sendErrorOk : Bool) :
    CycleOutput :=
  let err_msg := "Сбой в работе программы: " ++ e.message
  { state := s
    sends := [⟨.errorNote, err_msg, sendErrorOk⟩]
    logs := [err_msg]
    slept := RETRY_PERIOD }

/-- `homework['status']` as a string, read at line 158 after
`parse_status` has succeeded — which guarantees the key is present and
its value is one of the string keys of `HOMEWORK_VERDICTS`, so the
default branches are unreachable there (see
`parse_status_ok_status`). -/
def homeworkStatus (homework : Json) : String :=
  match homework with
  | .obj fields =>
      match fields.lookup "status" with
      | some (.str code) => code
      | _ => ""
  | _ => ""

/-- One iteration of the `while True` loop of `main` (lines 149-173):
request → validate → (empty? log and continue) → format → (changed?
send; on success commit `prev_status` and `timestamp`) → log, with
every raised exception routed to the `except` branch and a
`RETRY_PERIOD` sleep in `finally`. -/
def run_cycle (practicum_token : String) (s : LoopState)
    (inp : CycleInput) : CycleOutput :=
  match get_api_answer practicum_token s.timestamp inp.transport with
  | .error e => exceptBranch s e inp.sendErrorOk
  | .ok response =>
      match check_response response with
      | .error e => exceptBranch s e inp.sendErrorOk
      | .ok homeworks =>
          match homeworks with
          | [] =>
              { state := s, sends := [], logs := [noHomeworksLog]
                slept := RETRY_PERIOD }
          | homework :: _ =>
              match parse_status homework with
              | .error e => exceptBranch s e inp.sendErrorOk
              | .ok verdict =>
                  if homeworkStatus homework ≠ s.prev_status then
                    if inp.sendVerdictOk then
                      { state :=
                          { prev_status := homeworkStatus homework
                            timestamp := response.dictGet "current_date" }
                        sends := [⟨.verdict, verdict, true⟩]
                        logs := []
                        slept := RETRY_PERIOD }
                    else
                      { state := s
                        sends := [⟨.verdict, verdict, false⟩]
                        logs := [statusUnchangedLog]
                        slept := RETRY_PERIOD }
                  else
                    { state := s, sends := [], logs := [statusUnchangedLog]
                      slept := RETRY_PERIOD }

/-- The number of `send_message` calls in a cycle's trace that returned
`True`, i.e. notifications actually delivered. -/
def successfulSends (sends : List Send) : Nat :=
  (sends.filter fun snd => snd.ok).length

/- ## Supporting definitions and lemmas for the claims -/

/-- `sub` occurs in `s` as a contiguous substring. -/
def strContains (s sub : String) : Prop := ∃ p q, s = p ++ sub ++ q

/-- Faithfulness of `homeworkStatus`: when `parse_status` succeeds, the
record is a dict whose `status` key holds one of the verdict-table
keys, and `homeworkStatus` reads exactly that string. -/
theorem parse_status_ok_status (homework : Json) (verdict : String)
    (h : parse_status homework = .ok verdict) :
    ∃ fields code, homework = .obj fields
      ∧ fields.lookup "status" = some (.str code)
      ∧ (HOMEWORK_VERDICTS.lookup code).isSome
      ∧ homeworkStatus homework = code := by
  cases homework with
  | obj fields =>
      cases hname : fields.lookup "homework_name" with
      | none => simp [parse_status, hname] at h
      | some name =>
          cases hstatus : fields.lookup "status" with
          | none => simp [parse_status, hname, hstatus] at h
          | some status =>
              cases status with
              | str code =>
                  cases hv : HOMEWORK_VERDICTS.lookup code with
                  | none =>
                      simp [parse_status, hname, hstatus, Json.pyHashable,
                        verdictFor, hv] at h
                  | some v =>
                      exact ⟨fields, code, rfl, hstatus, by simp [hv],
                        by simp [homeworkStatus, hstatus]⟩
              | null =>
                  simp [parse_status, hname, hstatus, Json.pyHashable,
                    verdictFor] at h
              | bool b =>
                  simp [parse_status, hname, hstatus, Json.pyHashable,
                    verdictFor] at h
              | num n =>
                  simp [parse_status, hname, hstatus, Json.pyHashable,
                    verdictFor] at h
              | arr elems =>
                  simp [parse_status, hname, hstatus, Json.pyHashable] at h
              | obj fs =>
                  simp [parse_status, hname, hstatus, Json.pyHashable] at h
  | null => simp [parse_status] at h
  | bool b => simp [parse_status] at h
  | num n => simp [parse_status] at h
  | str s => simp [parse_status] at h
  | arr elems => simp [parse_status] at h

/- ## The claims -/

/-- C3: the claim says config loading names every missing environment
variable, not just the first.  The code does not: the
`if lost_tokens: raise TokenCheckError(...)` of `check_tokens` is
indented inside the scan loop (src/homework.py lines 53-57), so with
`PRACTICUM_TOKEN` present and both `TELEGRAM_TOKEN` and
`TELEGRAM_CHAT_ID` absent the raise fires as soon as `TELEGRAM_TOKEN`
is appended, and the error names only `TELEGRAM_TOKEN` — the equally
missing `TELEGRAM_CHAT_ID` is never reached.  The all-present case
does succeed without raising. -/
theorem C3_check_tokens_names_only_first_missing :
    check_tokens (some "practicum-token") none none
      = .error (.tokenCheckError ["TELEGRAM_TOKEN"])
    ∧ "TELEGRAM_CHAT_ID" ∉ ["TELEGRAM_TOKEN"]
    ∧ (BotError.tokenCheckError ["TELEGRAM_TOKEN"]).message
      = "Не найдены необходимые переменные окружения: TELEGRAM_TOKEN"
    ∧ check_tokens (some "p") (some "t") (some "c") = .ok () := by
  refine ⟨rfl, by decide, rfl, rfl⟩

/-- C5: `get_api_answer` raises `ResponseStatusNotOK` on every non-200
HTTP status, carrying the status code and the response body (both held
in the exception and interpolated into its message), and returns the
decoded JSON body on a 200 response. -/
theorem C5_get_api_answer_non_200 (practicum_token : String)
    (timestamp : Json) (status_code : Nat) (reason text : String)
    (jsonBody : Option Json) :
    (status_code ≠ 200 →
      get_api_answer practicum_token timestamp
          (.response status_code reason text jsonBody)
        = .error (.responseStatusNotOK status_code reason text)
      ∧ strContains
          (BotError.responseStatusNotOK status_code reason text).message
          (toString status_code)
      ∧ strContains
          (BotError.responseStatusNotOK status_code reason text).message
          text)
    ∧ (status_code = 200 → ∀ decoded, jsonBody = some decoded →
      get_api_answer practicum_token timestamp
          (.response status_code reason text jsonBody)
        = .ok decoded) := by
  constructor
  · intro hne
    refine ⟨by simp [get_api_answer, hne], ?_, ?_⟩
    · exact ⟨"Запрошенный ресурс недоступен." ++ "Код ответа: ",
        "Причина: " ++ reason ++ "Ответ сервера: " ++ text,
        by simp [BotError.message, String.append_assoc]⟩
    · exact ⟨"Запрошенный ресурс недоступен." ++ "Код ответа: "
          ++ toString status_code ++ "Причина: " ++ reason
          ++ "Ответ сервера: ", "",
        by simp [BotError.message, String.append_assoc,
          String.append_empty]⟩
  · intro h200 decoded hdecoded
    simp [get_api_answer, h200, hdecoded]

/-- Witness for C5 at the spec's example: a 404 response fails with
`ResponseStatusNotOK` carrying code 404 and the body. -/
theorem C5_get_api_answer_non_200_witness :
    (404 : Nat) ≠ 200
    ∧ get_api_answer "token" (.num 0)
        (.response 404 "Not Found" "gone" none)
      = .error (.responseStatusNotOK 404 "Not Found" "gone") :=
  ⟨by decide,
    ((C5_get_api_answer_non_200 "token" (.num 0) 404 "Not Found" "gone"
      none).1 (by decide)).1⟩

/-- C6: on a 200 response whose body is not valid JSON,
`response.json()` raises a `JSONDecodeError` (propagating uncaught out
of `get_api_answer`, whose `try` covers only `requests.get`), a
failure distinct from the transport failure (`ConnectionError`) and
from `ResponseStatusNotOK`. -/
theorem C6_get_api_answer_decode_error (practicum_token : String)
    (timestamp : Json) (reason text : String) :
    get_api_answer practicum_token timestamp
        (.response 200 reason text none)
      = .error .jsonDecodeError
    ∧ (∀ paramsMsg requestError,
        BotError.jsonDecodeError ≠ .connectionError paramsMsg requestError)
    ∧ (∀ status_code reason2 text2,
        BotError.jsonDecodeError
          ≠ .responseStatusNotOK status_code reason2 text2) := by
  refine ⟨rfl, ?_, ?_⟩
  · intro paramsMsg requestError h
    exact BotError.noConfusion h
  · intro status_code reason2 text2 h
    exact BotError.noConfusion h

/-- Witness for C6: a concrete 200 response with an undecodable body
fails with the decode error, which differs from a concrete status
failure. -/
theorem C6_get_api_answer_decode_error_witness :
    get_api_answer "token" (.num 0)
        (.response 200 "OK" "not json" none)
      = .error .jsonDecodeError
    ∧ BotError.jsonDecodeError ≠ .responseStatusNotOK 404 "Not Found" "b" :=
  ⟨(C6_get_api_answer_decode_error "token" (.num 0) "OK" "not json").1,
    (C6_get_api_answer_decode_error "token" (.num 0) "OK"
      "not json").2.2 404 "Not Found" "b"⟩

/-- C7: `check_response` returns exactly the (possibly empty) homeworks
list when the decoded value is a dict containing key `homeworks` bound
to a list, and otherwise raises the schema error (`TypeError`) of the
offending case, whose message names the offending key or received
type.  The four conjuncts cover every decoded JSON value. -/
theorem C7_check_response_schema (response : Json) :
    (∀ fields homeworks, response = .obj fields →
      fields.lookup "homeworks" = some (.arr homeworks) →
      check_response response = .ok homeworks)
    ∧ ((∀ fields, response ≠ .obj fields) →
      check_response response
        = .error (.typeErrorNotDict response.pyClassName)
      ∧ strContains (BotError.typeErrorNotDict response.pyClassName).message
          response.pyClassName)
    ∧ (∀ fields, response = .obj fields →
      fields.lookup "homeworks" = none →
      check_response response = .error .typeErrorNoHomeworksKey
      ∧ strContains BotError.typeErrorNoHomeworksKey.message "homeworks")
    ∧ (∀ fields other, response = .obj fields →
      fields.lookup "homeworks" = some other → (∀ xs, other ≠ .arr xs) →
      check_response response
        = .error (.typeErrorHomeworksNotList other.pyClassName)
      ∧ strContains
          (BotError.typeErrorHomeworksNotList other.pyClassName).message
          other.pyClassName) := by
  refine ⟨?_, ?_, ?_, ?_⟩
  · rintro fields homeworks rfl hlookup
    simp [check_response, hlookup]
  · intro hnotdict
    constructor
    · cases response with
      | obj fields => exact absurd rfl (hnotdict fields)
      | null => rfl
      | bool b => rfl
      | num n => rfl
      | str s => rfl
      | arr elems => rfl
    · exact ⟨"В ответе сервера ожидали dict, а получили ", "",
        by simp [BotError.message, String.append_assoc,
          String.append_empty]⟩
  · rintro fields rfl hlookup
    refine ⟨by simp [check_response, hlookup], ?_⟩
    exact ⟨"В ответе сервера не найден ключ \"", "\"",
      by simp [BotError.message, String.append_assoc]⟩
  · rintro fields other rfl hlookup hnotarr
    constructor
    · cases other with
      | arr xs => exact absurd rfl (hnotarr xs)
      | null => simp [check_response, hlookup]
      | bool b => simp [check_response, hlookup]
      | num n => simp [check_response, hlookup]
      | str s => simp [check_response, hlookup]
      | obj fs => simp [check_response, hlookup]
    · exact ⟨"В ответет сервера под ключом \"homeworks\" ожидали"
          ++ "list, а получили ", "!",
        by simp [BotError.message, String.append_assoc]⟩

/-- Witness for C7: a non-dict body raises the schema error naming the
received type, and a well-shaped body returns its (empty) homeworks
list. -/
theorem C7_check_response_schema_witness :
    check_response (.num 7) = .error (.typeErrorNotDict "int")
    ∧ check_response (.obj [("homeworks", .arr []),
        ("current_date", .num 5)]) = .ok [] :=
  ⟨((C7_check_response_schema (.num 7)).2.1
      (fun _ h => Json.noConfusion h)).1,
    (C7_check_response_schema
        (.obj [("homeworks", .arr []), ("current_date", .num 5)])).1
      [("homeworks", .arr []), ("current_date", .num 5)] [] rfl rfl⟩

/-- C8: for a record carrying a name and status `approved`,
`parse_status` returns a sentence containing both the homework name
and the exact `approved` verdict text. -/
theorem C8_parse_status_approved (fields : List (String × Json))
    (name : String)
    (hname : fields.lookup "homework_name" = some (.str name))
    (hstatus : fields.lookup "status" = some (.str "approved")) :
    ∃ result, parse_status (.obj fields) = .ok result
      ∧ strContains result name
      ∧ strContains result
          "Работа проверена: ревьюеру всё понравилось. Ура!" := by
  refine ⟨"Изменился статус проверки работы \"" ++ name ++ "\". "
      ++ "Работа проверена: ревьюеру всё понравилось. Ура!", ?_, ?_, ?_⟩
  · simp [parse_status, hname, hstatus, Json.pyHashable, verdictFor,
      HOMEWORK_VERDICTS, Json.pyStr]
  · exact ⟨"Изменился статус проверки работы \"",
      "\". " ++ "Работа проверена: ревьюеру всё понравилось. Ура!",
      by simp [String.append_assoc]⟩
  · exact ⟨"Изменился статус проверки работы \"" ++ name ++ "\". ", "",
      by simp [String.append_assoc, String.append_empty]⟩

/-- Witness for C8 on a concrete approved record. -/
theorem C8_parse_status_approved_witness :
    ∃ result,
      parse_status (.obj [("homework_name", .str "hw1"),
          ("status", .str "approved")]) = .ok result
      ∧ strContains result "hw1"
      ∧ strContains result
          "Работа проверена: ревьюеру всё понравилось. Ура!" :=
  C8_parse_status_approved
    [("homework_name", .str "hw1"), ("status", .str "approved")]
    "hw1" rfl rfl

/-- C4, counterexample to the claim as frozen: it asserts the
unknown-status `HomeworkError` for every status outside
`{approved, reviewing, rejected}`, but for a record whose status value
is a list, the membership test `homework_status not in
HOMEWORK_VERDICTS` (homework.py line 133) itself raises
`TypeError: unhashable type` before any `HomeworkError` can be
raised. -/
theorem C4_unhashable_status_counterexample :
    parse_status (.obj [("homework_name", .str "hw1"),
        ("status", .arr [])])
      = .error (.pyTypeErrorUnhashable "list")
    ∧ parse_status (.obj [("homework_name", .str "hw1"),
        ("status", .arr [])])
      ≠ .error (.homeworkErrorUnknownStatus (.arr [])) := by
  refine ⟨rfl, fun h => ?_⟩
  rw [show parse_status (.obj [("homework_name", .str "hw1"),
      ("status", .arr [])]) = .error (.pyTypeErrorUnhashable "list")
    from rfl] at h
  simp at h

/-- C4 as amended: `parse_status` raises the unknown-status
`HomeworkError` (the spec's `UnknownStatusError`) for a record that
has a name and a hashable status value outside
`{approved, reviewing, rejected}`; a record whose status is a list or
dict instead fails with the plain `TypeError: unhashable type` raised
by the membership test itself; and a record with no `homework_name`
key fails with the missing-name `HomeworkError` (the spec's
`MissingFieldError`).  (The missing-name check runs first, which is
why the status conjuncts presuppose the name key is present.) -/
theorem C4_parse_status_error_taxonomy (fields : List (String × Json)) :
    (∀ name status, fields.lookup "homework_name" = some name →
      fields.lookup "status" = some status →
      status.pyHashable = true →
      status ∉ [Json.str "approved", Json.str "reviewing",
        Json.str "rejected"] →
      parse_status (.obj fields)
        = .error (.homeworkErrorUnknownStatus status))
    ∧ (∀ name status, fields.lookup "homework_name" = some name →
      fields.lookup "status" = some status →
      status.pyHashable = false →
      parse_status (.obj fields)
        = .error (.pyTypeErrorUnhashable status.pyClassName))
    ∧ (fields.lookup "homework_name" = none →
      parse_status (.obj fields) = .error .homeworkErrorMissingName) := by
  refine ⟨?_, ?_, ?_⟩
  · intro name status hname hstatus hhash hnotin
    have hv : verdictFor status = none := by
      cases status with
      | str code =>
          have h1 : (code == "approved") = false :=
            beq_eq_false_iff_ne.mpr fun h => hnotin (by simp [h])
          have h2 : (code == "reviewing") = false :=
            beq_eq_false_iff_ne.mpr fun h => hnotin (by simp [h])
          have h3 : (code == "rejected") = false :=
            beq_eq_false_iff_ne.mpr fun h => hnotin (by simp [h])
          simp [verdictFor, HOMEWORK_VERDICTS, List.lookup, h1, h2, h3]
      | null => rfl
      | bool b => rfl
      | num n => rfl
      | arr elems => rfl
      | obj fs => rfl
    simp [parse_status, hname, hstatus, hhash, hv]
  · intro name status hname hstatus hhash
    simp [parse_status, hname, hstatus, hhash]
  · intro hname
    simp [parse_status, hname]

/-- Witness for the amended C4: an unrecognised hashable status code,
an unhashable (dict) status value, and a record lacking the name
key. -/
theorem C4_parse_status_error_taxonomy_witness :
    parse_status (.obj [("homework_name", .str "hw1"),
        ("status", .str "pending")])
      = .error (.homeworkErrorUnknownStatus (.str "pending"))
    ∧ parse_status (.obj [("homework_name", .str "hw1"),
        ("status", .obj [])])
      = .error (.pyTypeErrorUnhashable "dict")
    ∧ parse_status (.obj [("status", .str "approved")])
      = .error .homeworkErrorMissingName :=
  ⟨(C4_parse_status_error_taxonomy
        [("homework_name", .str "hw1"), ("status", .str "pending")]).1
      (.str "hw1") (.str "pending") rfl rfl rfl (by simp),
    (C4_parse_status_error_taxonomy
        [("homework_name", .str "hw1"), ("status", .obj [])]).2.1
      (.str "hw1") (.obj []) rfl rfl rfl,
    (C4_parse_status_error_taxonomy [("status", .str "approved")]).2.2
      rfl⟩

/-- C10: a record with `homework_name` but no `status` key makes
`parse_status` fail through the unguarded lookup `homework["status"]`
with a plain `KeyError`, which is not one of the bot's own exception
classes from src/exceptions.py. -/
theorem C10_parse_status_plain_keyerror (fields : List (String × Json))
    (name : Json)
    (hname : fields.lookup "homework_name" = some name)
    (hstatus : fields.lookup "status" = none) :
    parse_status (.obj fields) = .error (.keyError "status")
    ∧ (BotError.keyError "status").isBotDefined = false := by
  exact ⟨by simp [parse_status, hname, hstatus], rfl⟩

/-- Witness for C10 on a concrete record having only the name key. -/
theorem C10_parse_status_plain_keyerror_witness :
    parse_status (.obj [("homework_name", .str "hw1")])
      = .error (.keyError "status")
    ∧ (BotError.keyError "status").isBotDefined = false :=
  C10_parse_status_plain_keyerror [("homework_name", .str "hw1")]
    (.str "hw1") rfl rfl

/-- C9: a cycle whose validated response carries an empty homeworks
list logs the debug line, makes no send, leaves `prev_status` and
`timestamp` untouched, and sleeps the fixed `RETRY_PERIOD` in
`finally` before the next cycle. -/
theorem C9_empty_homeworks_cycle (practicum_token : String)
    (s : LoopState) (inp : CycleInput) (response : Json)
    (hget : get_api_answer practicum_token s.timestamp inp.transport
      = .ok response)
    (hcheck : check_response response = .ok []) :
    run_cycle practicum_token s inp
      = { state := s, sends := [], logs := [noHomeworksLog],
          slept := RETRY_PERIOD } := by
  simp [run_cycle, hget, hcheck]

/-- Witness for C9 on the spec's example body containing
`homeworks: []`. -/
theorem C9_empty_homeworks_cycle_witness :
    run_cycle "token" ⟨"", .num 0⟩
        ⟨.response 200 "OK" "body"
          (some (.obj [("homeworks", .arr []), ("current_date", .num 9)])),
         true, true⟩
      = { state := ⟨"", .num 0⟩, sends := [], logs := [noHomeworksLog],
          slept := RETRY_PERIOD } :=
  C9_empty_homeworks_cycle "token" ⟨"", .num 0⟩
    ⟨.response 200 "OK" "body"
      (some (.obj [("homeworks", .arr []), ("current_date", .num 9)])),
     true, true⟩
    (.obj [("homeworks", .arr []), ("current_date", .num 9)]) rfl rfl

/-- C1: across one poll cycle, the loop state (`prev_status` and
`timestamp`) changes only when a verdict send returned `True`; on a
successful send `prev_status` becomes the homework's status and
`timestamp` becomes the response's `current_date`; on a failed send
the state is left unchanged and the cycle ends with the
status-unchanged log, so the next cycle will attempt the same
notification again. -/
theorem C1_state_commits_only_on_successful_send
    (practicum_token : String) (s : LoopState) (inp : CycleInput) :
    ((∀ snd ∈ (run_cycle practicum_token s inp).sends,
        ¬(snd.kind = SendKind.verdict ∧ snd.ok = true)) →
      (run_cycle practicum_token s inp).state = s)
    ∧ (∀ response homework rest verdict,
        get_api_answer practicum_token s.timestamp inp.transport
          = .ok response →
        check_response response = .ok (homework :: rest) →
        parse_status homework = .ok verdict →
        homeworkStatus homework ≠ s.prev_status →
        (inp.sendVerdictOk = true →
          run_cycle practicum_token s inp
            = { state := ⟨homeworkStatus homework,
                  response.dictGet "current_date"⟩,
                sends := [⟨.verdict, verdict, true⟩], logs := [],
                slept := RETRY_PERIOD })
        ∧ (inp.sendVerdictOk = false →
          run_cycle practicum_token s inp
            = { state := s, sends := [⟨.verdict, verdict, false⟩],
                logs := [statusUnchangedLog],
                slept := RETRY_PERIOD })) := by
  constructor
  · intro hnosend
    cases hget : get_api_answer practicum_token s.timestamp inp.transport with
    | error e => simp [run_cycle, hget, exceptBranch]
    | ok response =>
      cases hcheck : check_response response with
      | error e => simp [run_cycle, hget, hcheck, exceptBranch]
      | ok homeworks =>
        cases homeworks with
        | nil => simp [run_cycle, hget, hcheck]
        | cons homework rest =>
          cases hps : parse_status homework with
          | error e => simp [run_cycle, hget, hcheck, hps, exceptBranch]
          | ok verdict =>
            by_cases hst : homeworkStatus homework ≠ s.prev_status
            · cases hsend : inp.sendVerdictOk with
              | true =>
                exact absurd ⟨rfl, rfl⟩
                  (hnosend ⟨.verdict, verdict, true⟩
                    (by simp [run_cycle, hget, hcheck, hps, hst, hsend]))
              | false => simp [run_cycle, hget, hcheck, hps, hst, hsend]
            · simp [run_cycle, hget, hcheck, hps, hst]
  · intro response homework rest verdict hget hcheck hps hst
    constructor
    · intro hsend
      simp [run_cycle, hget, hcheck, hps, hst, hsend]
    · intro hsend
      simp [run_cycle, hget, hcheck, hps, hst, hsend]

/-- Witness for C1: a concrete cycle (status `approved` against initial
`prev_status = ""`, send succeeding) commits the homework's status and
the response's `current_date`. -/
theorem C1_state_commits_only_on_successful_send_witness :
    run_cycle "token" ⟨"", .num 0⟩
        ⟨.response 200 "OK" "body"
          (some (.obj [("homeworks", .arr
              [.obj [("homework_name", .str "hw1"),
                ("status", .str "approved")]]),
            ("current_date", .num 123)])),
         true, true⟩
      = { state := ⟨"approved", .num 123⟩,
          sends := [⟨.verdict,
            "Изменился статус проверки работы \"hw1\". "
              ++ "Работа проверена: ревьюеру всё понравилось. Ура!",
            true⟩],
          logs := [], slept := RETRY_PERIOD } :=
  ((C1_state_commits_only_on_successful_send "token" ⟨"", .num 0⟩
      ⟨.response 200 "OK" "body"
        (some (.obj [("homeworks", .arr
            [.obj [("homework_name", .str "hw1"),
              ("status", .str "approved")]]),
          ("current_date", .num 123)])),
       true, true⟩).2
    (.obj [("homeworks", .arr
        [.obj [("homework_name", .str "hw1"),
          ("status", .str "approved")]]),
      ("current_date", .num 123)])
    (.obj [("homework_name", .str "hw1"), ("status", .str "approved")])
    []
    ("Изменился статус проверки работы \"hw1\". "
      ++ "Работа проверена: ревьюеру всё понравилось. Ура!")
    rfl rfl rfl (by decide)).1 rfl

/-- C2: over two consecutive cycles whose validated responses put the
same status `st` on `homeworks[0]`, at most one notification is
delivered, and whenever the first cycle left `prev_status = st`
(in particular after a successful send), the second cycle attempts no
send at all. -/
theorem C2_unchanged_status_sends_at_most_once
    (practicum_token : String) (s : LoopState) (inp1 inp2 : CycleInput)
    (st : String) (r1 r2 homework1 homework2 : Json)
    (rest1 rest2 : List Json) (verdict1 verdict2 : String)
    (h1 : get_api_answer practicum_token s.timestamp inp1.transport
      = .ok r1)
    (h2 : check_response r1 = .ok (homework1 :: rest1))
    (h3 : parse_status homework1 = .ok verdict1)
    (h4 : homeworkStatus homework1 = st)
    (h5 : get_api_answer practicum_token
        (run_cycle practicum_token s inp1).state.timestamp inp2.transport
      = .ok r2)
    (h6 : check_response r2 = .ok (homework2 :: rest2))
    (h7 : parse_status homework2 = .ok verdict2)
    (h8 : homeworkStatus homework2 = st) :
    successfulSends ((run_cycle practicum_token s inp1).sends
        ++ (run_cycle practicum_token
              (run_cycle practicum_token s inp1).state inp2).sends) ≤ 1
    ∧ ((run_cycle practicum_token s inp1).state.prev_status = st →
      (run_cycle practicum_token
        (run_cycle practicum_token s inp1).state inp2).sends = []) := by
  by_cases hst1 : st = s.prev_status
  · have hout1 : run_cycle practicum_token s inp1
        = { state := s, sends := [], logs := [statusUnchangedLog],
            slept := RETRY_PERIOD } := by
      simp [run_cycle, h1, h2, h3, h4, hst1]
    have hout2 : run_cycle practicum_token s inp2
        = { state := s, sends := [], logs := [statusUnchangedLog],
            slept := RETRY_PERIOD } := by
      simp only [hout1] at h5
      simp [run_cycle, h5, h6, h7, h8, hst1]
    refine ⟨?_, fun _ => ?_⟩
    · simp [hout1, hout2, successfulSends]
    · simp [hout1, hout2]
  · cases hsend1 : inp1.sendVerdictOk with
    | true =>
      have hne : homeworkStatus homework1 ≠ s.prev_status := by
        rw [h4]; exact hst1
      have hout1 : run_cycle practicum_token s inp1
          = { state := ⟨st, r1.dictGet "current_date"⟩,
              sends := [⟨.verdict, verdict1, true⟩], logs := [],
              slept := RETRY_PERIOD } := by
        simp [run_cycle, h1, h2, h3, hne, hsend1, h4, hst1]
      have hout2 : run_cycle practicum_token
            ⟨st, r1.dictGet "current_date"⟩ inp2
          = { state := ⟨st, r1.dictGet "current_date"⟩, sends := [],
              logs := [statusUnchangedLog], slept := RETRY_PERIOD } := by
        simp only [hout1] at h5
        simp [run_cycle, h5, h6, h7, h8]
      refine ⟨?_, fun _ => ?_⟩
      · simp [hout1, hout2, successfulSends]
      · simp [hout1, hout2]
    | false =>
      have hne : homeworkStatus homework1 ≠ s.prev_status := by
        rw [h4]; exact hst1
      have hout1 : run_cycle practicum_token s inp1
          = { state := s, sends := [⟨.verdict, verdict1, false⟩],
              logs := [statusUnchangedLog], slept := RETRY_PERIOD } := by
        simp [run_cycle, h1, h2, h3, hne, hsend1, hst1]
      have hne2 : homeworkStatus homework2 ≠ s.prev_status := by
        rw [h8]; exact hst1
      constructor
      · simp only [hout1] at h5
        cases hsend2 : inp2.sendVerdictOk with
        | true =>
          have hout2 : run_cycle practicum_token s inp2
              = { state := ⟨st, r2.dictGet "current_date"⟩,
                  sends := [⟨.verdict, verdict2, true⟩], logs := [],
                  slept := RETRY_PERIOD } := by
            simp [run_cycle, h5, h6, h7, hne2, hsend2, h8, hst1]
          simp [hout1, hout2, successfulSends]
        | false =>
          have hout2 : run_cycle practicum_token s inp2
              = { state := s, sends := [⟨.verdict, verdict2, false⟩],
                  logs := [statusUnchangedLog], slept := RETRY_PERIOD } := by
            simp [run_cycle, h5, h6, h7, hne2, hsend2, hst1]
          simp [hout1, hout2, successfulSends]
      · intro hprev
        rw [hout1] at hprev
        exact absurd hprev.symm hst1

/-- Witness for C2: two concrete consecutive cycles both reporting
status `reviewing` with a working transport deliver at most one
notification, and the second cycle sends nothing. -/
theorem C2_unchanged_status_sends_at_most_once_witness :
    successfulSends ((run_cycle "token" ⟨"", .num 0⟩
        ⟨.response 200 "OK" "b1"
          (some (.obj [("homeworks", .arr
              [.obj [("homework_name", .str "hw1"),
                ("status", .str "reviewing")]]),
            ("current_date", .num 100)])), true, true⟩).sends
      ++ (run_cycle "token"
            (run_cycle "token" ⟨"", .num 0⟩
              ⟨.response 200 "OK" "b1"
                (some (.obj [("homeworks", .arr
                    [.obj [("homework_name", .str "hw1"),
                      ("status", .str "reviewing")]]),
                  ("current_date", .num 100)])), true, true⟩).state
            ⟨.response 200 "OK" "b2"
              (some (.obj [("homeworks", .arr
                  [.obj [("homework_name", .str "hw1"),
                    ("status", .str "reviewing")]]),
                ("current_date", .num 200)])), true, true⟩).sends) ≤ 1
    ∧ ((run_cycle "token" ⟨"", .num 0⟩
          ⟨.response 200 "OK" "b1"
            (some (.obj [("homeworks", .arr
                [.obj [("homework_name", .str "hw1"),
                  ("status", .str "reviewing")]]),
              ("current_date", .num 100)])), true, true⟩).state.prev_status
        = "reviewing" →
      (run_cycle "token"
          (run_cycle "token" ⟨"", .num 0⟩
            ⟨.response 200 "OK" "b1"
              (some (.obj [("homeworks", .arr
                  [.obj [("homework_name", .str "hw1"),
                    ("status", .str "reviewing")]]),
                ("current_date", .num 100)])), true, true⟩).state
          ⟨.response 200 "OK" "b2"
            (some (.obj [("homeworks", .arr
                [.obj [("homework_name", .str "hw1"),
                  ("status", .str "reviewing")]]),
              ("current_date", .num 200)])), true, true⟩).sends = []) :=
  C2_unchanged_status_sends_at_most_once "token" ⟨"", .num 0⟩
    ⟨.response 200 "OK" "b1"
      (some (.obj [("homeworks", .arr
          [.obj [("homework_name", .str "hw1"),
            ("status", .str "reviewing")]]),
        ("current_date", .num 100)])), true, true⟩
    ⟨.response 200 "OK" "b2"
      (some (.obj [("homeworks", .arr
          [.obj [("homework_name", .str "hw1"),
            ("status", .str "reviewing")]]),
        ("current_date", .num 200)])), true, true⟩
    "reviewing"
    (.obj [("homeworks", .arr
        [.obj [("homework_name", .str "hw1"),
          ("status", .str "reviewing")]]),
      ("current_date", .num 100)])
    (.obj [("homeworks", .arr
        [.obj [("homework_name", .str "hw1"),
          ("status", .str "reviewing")]]),
      ("current_date", .num 200)])
    (.obj [("homework_name", .str "hw1"), ("status", .str "reviewing")])
    (.obj [("homework_name", .str "hw1"), ("status", .str "reviewing")])
    [] []
    ("Изменился статус проверки работы \"hw1\". "
      ++ "Работа взята на проверку ревьюером.")
    ("Изменился статус проверки работы \"hw1\". "
      ++ "Работа взята на проверку ревьюером.")
    rfl rfl rfl rfl rfl rfl rfl rfl
